import Mathlib

/-!
Shallow embedding of the TravelBlogSpecKit repository: the post-content
rendering/sorting model, the user lookup service, the create-text endpoint,
and (modelled from the spec where the implementation files are not in the
analysed sources) the login handler, the role-gated query layer and the
reorder operation.
-/

namespace TravelBlog

/-! Section: Generic stable sort by a rational sort key

JS `Array.prototype.sort` with comparator `(a, b) => a.displayOrder - b.displayOrder`
is a stable sort by `displayOrder` ascending.  We model it with Mathlib
insertion sort, which is stable.  `displayOrder` is a JS number; the spec
scenario uses the fractional value 1.5, so we model it as `Rat`. -/

/-- The comparator relation induced by a rational key. -/
def keyLe {α : Type} (key : α → Rat) (a b : α) : Prop := key a ≤ key b

instance {α : Type} (key : α → Rat) : DecidableRel (keyLe key) :=
  fun a b => inferInstanceAs (Decidable (key a ≤ key b))

instance {α : Type} (key : α → Rat) : IsTotal α (keyLe key) :=
  ⟨fun a b => le_total (key a) (key b)⟩

instance {α : Type} (key : α → Rat) : IsTrans α (keyLe key) :=
  ⟨fun _ _ _ => le_trans⟩

/-- Stable sort ascending by a rational key: the model of
`arr.sort((a, b) => a.displayOrder - b.displayOrder)`. -/
def sortByDisplayOrder {α : Type} (key : α → Rat) (l : List α) : List α :=
  List.insertionSort (keyLe key) l

/-! Data model of post content (src/components/blog/PostRenderer.tsx) -/

/-- A photo content item (interface `Photo`), with the fields the renderer uses. -/
structure Photo where
  id : String
  url : String
  altText : String
  caption : Option String
  displayOrder : Rat
deriving DecidableEq

/-- A video content item (interface `Video`). -/
structure Video where
  id : String
  url : String
  caption : Option String
  thumbnailUrl : Option String
  displayOrder : Rat
deriving DecidableEq

/-- A text block content item (interface `TextBlock`). -/
structure TextBlock where
  id : String
  content : String
  displayOrder : Rat
deriving DecidableEq

/-- The three content collections of a post (interface `PostContent`). -/
structure PostContent where
  photos : List Photo
  videos : List Video
  textBlocks : List TextBlock
deriving DecidableEq

/-- One item of the rendered output sequence, tagged with its content type. -/
inductive RenderedItem where
  | photo (p : Photo)
  | video (v : Video)
  | text (t : TextBlock)
deriving DecidableEq

/-- The display order of a rendered item, regardless of its type. -/
def RenderedItem.displayOrder : RenderedItem → Rat
  | .photo p => p.displayOrder
  | .video v => v.displayOrder
  | .text t => t.displayOrder

/-- Extract the photo of a rendered item, if it is one. -/
def RenderedItem.asPhoto : RenderedItem → Option Photo
  | .photo p => some p
  | _ => none

/-- Extract the video of a rendered item, if it is one. -/
def RenderedItem.asVideo : RenderedItem → Option Video
  | .video v => some v
  | _ => none

/-- Extract the text block of a rendered item, if it is one. -/
def RenderedItem.asText : RenderedItem → Option TextBlock
  | .text t => some t
  | _ => none

/-- `DefaultTemplate` (PostRenderer.tsx): sorts each of the three collections
separately by `displayOrder` and emits the photo grid first, then the video
list, then the text blocks — three per-type sequences concatenated, exactly
as the JSX lays them out. -/
def DefaultTemplate (content : PostContent) : List RenderedItem :=
  let sortedPhotos := sortByDisplayOrder Photo.displayOrder content.photos
  let sortedVideos := sortByDisplayOrder Video.displayOrder content.videos
  let sortedTextBlocks := sortByDisplayOrder TextBlock.displayOrder content.textBlocks
  sortedPhotos.map RenderedItem.photo ++
    sortedVideos.map RenderedItem.video ++
    sortedTextBlocks.map RenderedItem.text

/-- The `sortedContent` record built by `PostRenderer` before handing the
content to the selected template: each collection is copied and sorted by
`displayOrder` independently. -/
def PostRendererSortedContent (content : PostContent) : PostContent :=
  { photos := sortByDisplayOrder Photo.displayOrder content.photos
    videos := sortByDisplayOrder Video.displayOrder content.videos
    textBlocks := sortByDisplayOrder TextBlock.displayOrder content.textBlocks }

/-- `PostRenderer` on the default-template path (an unknown `templateId`
falls back to `DefaultTemplate`): sorts the content per collection, then
renders it with `DefaultTemplate`. -/
def PostRenderer (content : PostContent) : List RenderedItem :=
  DefaultTemplate (PostRendererSortedContent content)

/-- The assembly the spec describes (spec-side definition, for comparison
with the code): the union of all three collections sorted by `displayOrder`
ascending regardless of content type — one merged total order. -/
def specMergedAssembly (content : PostContent) : List RenderedItem :=
  sortByDisplayOrder RenderedItem.displayOrder
    (content.photos.map RenderedItem.photo ++
      content.videos.map RenderedItem.video ++
      content.textBlocks.map RenderedItem.text)

/-! Heap model of JS array mutation (for the frame property of the renderer)

JS arrays are references into a heap.  `PostRenderer` and `DefaultTemplate`
evaluate the expression `[...arr].sort(cmp)`: the spread allocates a fresh
array holding the same elements, and `.sort` then mutates that fresh array in
place.  We make the mutation explicit with a small heap of arrays, so that
the fact that the input arrays are untouched is a theorem about the heap
rather than a triviality of immutable lists. -/

/-- A heap of JS arrays of element type α; an array identity is its index. -/
abbrev ArrHeap (α : Type) : Type := List (List α)

/-- Dereference an array identity. -/
def lookupArr {α : Type} (h : ArrHeap α) (i : Nat) : Option (List α) :=
  h[i]?

/-- The evaluation of `[...arr].sort(cmp)` against the heap: allocate a fresh
array with the same elements (the spread), then sort that fresh array in
place (the `.sort` call, modelled as overwriting the fresh cell), and return
the updated heap together with the identity of the fresh array. -/
def spreadSortCall {α : Type} (key : α → Rat) (h : ArrHeap α) (a : Nat) :
    ArrHeap α × Nat :=
  let copy := (lookupArr h a).getD []
  let allocated := h ++ [copy]
  let newId := h.length
  (allocated.set newId (sortByDisplayOrder key copy), newId)

/-- The three JS array heaps the renderer touches, one per element type. -/
structure RendererHeaps where
  photoHeap : ArrHeap Photo
  videoHeap : ArrHeap Video
  textHeap : ArrHeap TextBlock

/-- The heap effect of the `sortedContent` construction in `PostRenderer`
(and identically of the sorting lines of `DefaultTemplate`): each of the
three input arrays is spread into a fresh copy which is then sorted in
place.  Returns the heaps after the call and the identities of the three
fresh sorted arrays. -/
def PostRendererEffect (hs : RendererHeaps) (pa va ta : Nat) :
    RendererHeaps × Nat × Nat × Nat :=
  let p := spreadSortCall Photo.displayOrder hs.photoHeap pa
  let v := spreadSortCall Video.displayOrder hs.videoHeap va
  let t := spreadSortCall TextBlock.displayOrder hs.textHeap ta
  (⟨p.1, v.1, t.1⟩, p.2, v.2, t.2)

/-! Section: User model and lookup service (workers/lib/user-service.ts) -/

/-- The two user roles. -/
inductive Role where
  | reader
  | contributor
deriving DecidableEq

/-- A user record as loaded from users.json. -/
structure User where
  username : String
  passwordHash : String
  role : Role
  displayName : Option String
deriving DecidableEq

/-- Model of JS `String.prototype.toLowerCase`: lowercases each character. -/
def jsToLowerCase (s : String) : String :=
  ⟨s.data.map Char.toLower⟩

/-- `findUserByUsername` (workers/lib/user-service.ts): case-insensitive
lookup.  The module-level `users` list loaded from users.json is passed as a
parameter, since users.json is data, not code. -/
def findUserByUsername (users : List User) (username : String) : Option User :=
  let normalizedUsername := jsToLowerCase username
  users.find? (fun u => jsToLowerCase u.username == normalizedUsername)

/-! Worker error taxonomy and content store (posts worker) -/

/-- The error kinds of the worker error taxonomy.  The file
workers/lib/errors.ts is not in the analysed sources; the kinds and their
HTTP statuses are modelled from the spec error-handling taxonomy
(`InvalidInput` 400, `InvalidCredentials` 401, `Unauthorized` 401,
`Forbidden` 403, `NotFound` 404, `ServerError` 500). -/
inductive ErrorKind where
  | invalidInput
  | invalidCredentials
  | unauthorized
  | forbidden
  | notFound
  | serverError
deriving DecidableEq

/-- Modelled from the spec: the HTTP status attached to each error kind by
the missing workers/lib/errors.ts, following the spec taxonomy of section 7. -/
def ErrorKind.status : ErrorKind → Nat
  | .invalidInput => 400
  | .invalidCredentials => 401
  | .unauthorized => 401
  | .forbidden => 403
  | .notFound => 404
  | .serverError => 500

/-- An error raised by a worker handler. -/
structure ApiError where
  kind : ErrorKind
  message : String
deriving DecidableEq

/-- Status of a blog post. -/
inductive PostStatus where
  | draft
  | published
deriving DecidableEq

/-- A row of the blog_posts table (the columns the analysed handlers use;
timestamps are modelled as naturals). -/
structure PostRow where
  id : String
  slug : String
  title : String
  authorId : String
  status : PostStatus
  createdAt : Nat
  publishedAt : Option Nat
  updatedAt : Nat
deriving DecidableEq

/-- A row of the text_content table. -/
structure TextRow where
  id : String
  postId : String
  content : String
  displayOrder : Rat
  sectionName : String
  createdAt : Nat
deriving DecidableEq

/-- A row of the photo content table (the columns the analysed flow uses). -/
structure PhotoRow where
  id : String
  postId : String
  url : String
  displayOrder : Rat
deriving DecidableEq

/-- A row of the video content table (the columns the analysed flow uses). -/
structure VideoRow where
  id : String
  postId : String
  url : String
  displayOrder : Rat
deriving DecidableEq

/-- The content store of the posts worker. -/
structure Store where
  blogPosts : List PostRow
  photoContent : List PhotoRow
  videoContent : List VideoRow
  textContent : List TextRow
deriving DecidableEq

/-- The authenticated session user attached to the request by withAuth. -/
structure SessionUser where
  sub : String
  role : Role
deriving DecidableEq

/-! Section: Create-text endpoint (workers/posts/create-text.ts) -/

/-- The request body of POST /api/posts/:postId/text.  `content` is optional
here because the handler must also observe an absent field. -/
structure CreateTextRequest where
  content : Option String
  displayOrder : Option Rat
deriving DecidableEq

/-- The success payload returned by createText. -/
structure CreateTextResponse where
  textId : String
  content : String
  displayOrder : Rat
  createdAt : Nat
deriving DecidableEq

/-- JS falsiness of an optional string: undefined, null and "" are falsy. -/
def falsyStr : Option String → Bool
  | none => true
  | some s => s == ""

/-- SQL MAX(display_order) over a set of text rows: none when the set is
empty. -/
def maxDisplayOrder (rows : List TextRow) : Option Rat :=
  (rows.map TextRow.displayOrder).max?

/-- The createText handler (workers/posts/create-text.ts), after withAuth
has attached the session user.  Follows the source line by line: falsy
postId gives NotFound; falsy content gives a validation error
(InvalidInput); an absent post gives NotFound; an author mismatch raises
UnauthorizedError; then the display order is computed as
`body.displayOrder ?? 0` followed by the (dead) null check that would fall
back to MAX(display_order) + 1; finally the row is inserted and the post
updated_at column is refreshed.  `newId` stands for the generated UUID and
`now` for the current time. -/
def createText (user : SessionUser) (postId : Option String)
    (body : CreateTextRequest) (store : Store) (now : Nat) (newId : String) :
    Except ApiError (Store × CreateTextResponse) :=
  if falsyStr postId then
    .error ⟨.notFound, "Post not found"⟩
  else
    let pid := postId.getD ""
    if falsyStr body.content then
      .error ⟨.invalidInput, "content is required and must be a string"⟩
    else
      let content := body.content.getD ""
      match store.blogPosts.find? (fun p => p.id == pid) with
      | none => .error ⟨.notFound, "Post not found"⟩
      | some post =>
        if post.authorId ≠ user.sub then
          .error ⟨.unauthorized, "You do not have permission to add text to this post"⟩
        else
          let displayOrderCoalesced : Option Rat := some (body.displayOrder.getD 0)
          let displayOrder :=
            match displayOrderCoalesced with
            | none =>
              (maxDisplayOrder (store.textContent.filter
                (fun t => t.postId == pid))).getD (-1) + 1
            | some v => v
          let row : TextRow := ⟨newId, pid, content, displayOrder, "main", now⟩
          let posts2 := store.blogPosts.map
            (fun p => if p.id == pid then { p with updatedAt := now } else p)
          .ok (⟨posts2, store.photoContent, store.videoContent,
              store.textContent ++ [row]⟩,
            ⟨newId, content, displayOrder, now⟩)

/-- The store observable after a createText request: unchanged when the
handler raised an error, the updated store otherwise. -/
def createTextObservable (user : SessionUser) (postId : Option String)
    (body : CreateTextRequest) (store : Store) (now : Nat) (newId : String) :
    Store :=
  match createText user postId body store now newId with
  | .error _ => store
  | .ok (s, _) => s

/-- The capability predicate of the spec, section 4.2:
canModify(user, post) = (user.role == contributor) AND (user.id == post.authorId).
Spec-side definition, for comparison with what the code checks. -/
def canModify (user : SessionUser) (post : PostRow) : Bool :=
  user.role == Role.contributor && user.sub == post.authorId

/-! Section: Session issuer (login)

The implementation file workers/auth/login.ts is not among the analysed
sources: only its router (workers/auth/index.ts) and its unit tests
(tests/workers/login.test.ts) are.  The handler is therefore modelled from
the spec, section 4.1, and its behaviour checked against the expectations of
the test file. -/

/-- The request body of POST /api/auth/login. -/
structure LoginRequest where
  username : Option String
  password : Option String
  rememberMe : Bool
deriving DecidableEq

/-- The public user profile returned on a successful login. -/
structure PublicUser where
  username : String
  role : Role
deriving DecidableEq

/-- A session token: subject, role, issue and expiry instants (seconds). -/
structure SessionToken where
  subject : String
  role : Role
  issuedAt : Nat
  expiresAt : Nat
deriving DecidableEq

/-- The session cookie with its attributes. -/
structure SessionCookie where
  token : SessionToken
  httpOnly : Bool
  secure : Bool
  sameSiteStrict : Bool
  maxAge : Nat
deriving DecidableEq

/-- The body of a login response: an error body {error, message} or the
success payload {user, expiresAt}. -/
inductive LoginBody where
  | err (kind : ErrorKind) (message : String)
  | ok (user : PublicUser) (expiresAt : Nat)
deriving DecidableEq

/-- A login HTTP response: status, body, optional Set-Cookie. -/
structure LoginResponse where
  status : Nat
  body : LoginBody
  setCookie : Option SessionCookie
deriving DecidableEq

/-- Modelled from the spec: bcrypt verification is an external primitive and
the hashes are data (users.json); a hash is modelled as the encoding
"bcrypt$" ++ password, so that verification is a comparison against that
encoding. -/
def verifyPassword (password hash : String) : Bool :=
  hash == "bcrypt$" ++ password

/-- Modelled from the spec: the login handler (workers/auth/login.ts is
missing from the analysed sources).  Per section 4.1: a missing username or
password gives InvalidInput 400; the user is looked up case-insensitively
with findUserByUsername; an absent user and a mismatching password fail
uniformly with InvalidCredentials 401 and the generic message (the message
string is the one asserted by tests/workers/login.test.ts); on success a
token is issued with expiresAt = now + (rememberMe ? 604800 : 86400) and is
embedded in an HttpOnly, Secure, SameSite=Strict cookie whose Max-Age equals
the same duration. -/
def handleLogin (users : List User) (req : LoginRequest) (now : Nat) :
    LoginResponse :=
  if falsyStr req.username || falsyStr req.password then
    ⟨400, .err .invalidInput "Username and password are required", none⟩
  else
    let username := req.username.getD ""
    let password := req.password.getD ""
    match findUserByUsername users username with
    | none => ⟨401, .err .invalidCredentials "Invalid username or password", none⟩
    | some user =>
      if verifyPassword password user.passwordHash then
        let duration := if req.rememberMe then 604800 else 86400
        let token : SessionToken := ⟨user.username, user.role, now, now + duration⟩
        ⟨200, .ok ⟨user.username, user.role⟩ (now + duration),
          some ⟨token, true, true, true, duration⟩⟩
      else
        ⟨401, .err .invalidCredentials "Invalid username or password", none⟩

/-! Section: Role-gated query layer (listPosts, getPost)

The implementation files workers/posts/list-posts.ts and
workers/posts/get-post.ts are not among the analysed sources: only the
router (workers/posts/index.ts) that mounts them is.  Both are modelled from
the spec, section 4.3. -/

/-- The status filter of listPosts. -/
inductive StatusFilter where
  | published
  | all
deriving DecidableEq

/-- The reverse-chronological sort key: publishedAt, falling back to
createdAt for drafts. -/
def sortDate (p : PostRow) : Nat :=
  p.publishedAt.getD p.createdAt

/-- Lexicographic comparison of strings by character code, ascending (an
executable model of comparing ids as strings). -/
def strLeB : List Char → List Char → Bool
  | [], _ => true
  | _ :: _, [] => false
  | a :: as, b :: bs =>
    if a.toNat < b.toNat then true
    else if b.toNat < a.toNat then false
    else strLeB as bs

/-- Modelled from the spec: the listPosts ordering — newest first by
sortDate, ties broken by id ascending for determinism. -/
def listPostsLe (a b : PostRow) : Prop :=
  sortDate b < sortDate a ∨
    (sortDate a = sortDate b ∧ strLeB a.id.data b.id.data = true)

instance : DecidableRel listPostsLe := fun a b =>
  inferInstanceAs (Decidable (_ ∨ _))

/-- Modelled from the spec: listPosts (workers/posts/list-posts.ts is
missing from the analysed sources).  Per section 4.3: with
filters.status == published only published posts are returned regardless of
caller role; a contributor calling with status == all receives exactly the
posts they authored (their management view); the layer never leaks other
authors drafts, so a reader calling with status == all still sees only
published posts.  The result is sorted newest first with id as tie break. -/
def listPosts (posts : List PostRow) (callerRole : Role) (callerId : String)
    (filter : StatusFilter) : List PostRow :=
  let visible :=
    match filter, callerRole with
    | .published, _ => posts.filter (fun p => p.status == .published)
    | .all, .contributor => posts.filter (fun p => p.authorId == callerId)
    | .all, .reader => posts.filter (fun p => p.status == .published)
  List.insertionSort listPostsLe visible

/-- The payload of a successful getPost: the post plus its three content
collections. -/
structure PostWithContent where
  post : PostRow
  photos : List PhotoRow
  videos : List VideoRow
  textBlocks : List TextRow
deriving DecidableEq

/-- Modelled from the spec: getPost (workers/posts/get-post.ts is missing
from the analysed sources).  Per section 4.3: the post is found by id or
slug; it is returned with its content if status == published, or if
callerId == post.authorId regardless of status; otherwise the call fails
with NotFound — deliberately not Forbidden, to avoid leaking the existence
of draft posts to non-authors. -/
def getPost (store : Store) (idOrSlug : String) (callerRole : Role)
    (callerId : String) : Except ApiError PostWithContent :=
  match store.blogPosts.find? (fun p => p.id == idOrSlug || p.slug == idOrSlug) with
  | none => .error ⟨.notFound, "Post not found"⟩
  | some post =>
    if post.status == .published || callerId == post.authorId then
      .ok ⟨post,
        store.photoContent.filter (fun r => r.postId == post.id),
        store.videoContent.filter (fun r => r.postId == post.id),
        store.textContent.filter (fun r => r.postId == post.id)⟩
    else
      .error ⟨.notFound, "Post not found"⟩

/-! Section: Reorder operation

The implementation file workers/posts/reorder.ts is not among the analysed
sources: only the router that mounts it is.  The operation is modelled from
the spec, section 4.4: it accepts a target ordering (content ids with type
tags), assigns new displayOrder values that preserve the caller-specified
relative order, and applies them atomically — on any failure mid-update the
prior ordering is preserved in full. -/

/-- The content type tag of a reorder target entry. -/
inductive CType where
  | photo
  | video
  | text
deriving DecidableEq

/-- A content key: type tag plus content id. -/
structure ContentKey where
  ctype : CType
  id : String
deriving DecidableEq

/-- A content item of a post as the reorder operation sees it. -/
structure ContentItem where
  key : ContentKey
  displayOrder : Rat
deriving DecidableEq

/-- The position of a key in the target list, if present. -/
def keyIndex (k : ContentKey) : List ContentKey → Option Nat
  | [] => none
  | x :: xs => if x = k then some 0 else (keyIndex k xs).map (· + 1)

/-- Modelled from the spec: the fully-committed reorder assignment — the
item listed at position i of the target receives displayOrder i, so the new
values preserve the caller-specified relative order; items not listed keep
their displayOrder. -/
def applyReorder (items : List ContentItem) (target : List ContentKey) :
    List ContentItem :=
  items.map (fun it =>
    match keyIndex it.key target with
    | some i => ⟨it.key, (i : Rat)⟩
    | none => it)

/-- Modelled from the spec: the reorder transaction.  The row updates run
inside one atomic transaction; `failAt = some k` with k < target.length
simulates the k-th single-row update failing, which rolls the transaction
back and surfaces a ServerError; otherwise every update commits. -/
def reorderContent (items : List ContentItem) (target : List ContentKey)
    (failAt : Option Nat) : Except ApiError (List ContentItem) :=
  match failAt with
  | some k =>
    if k < target.length then
      .error ⟨.serverError, "Failed to reorder content"⟩
    else
      .ok (applyReorder items target)
  | none => .ok (applyReorder items target)

/-- The content observable after a reorder request: the prior state when the
transaction rolled back, the fully reordered state otherwise. -/
def reorderObservable (items : List ContentItem) (target : List ContentKey)
    (failAt : Option Nat) : List ContentItem :=
  match reorderContent items target failAt with
  | .error _ => items
  | .ok s => s

/-! Section: Sample data for the concrete witnesses -/

/-- Contributor alice, as a session user. -/
def alice : SessionUser := ⟨"alice", .contributor⟩

/-- Contributor bob, as a session user; not the author of any sample post. -/
def bob : SessionUser := ⟨"bob", .contributor⟩

/-- A published post authored by alice. -/
def samplePublished : PostRow :=
  ⟨"post-1", "trip-to-rome", "Rome", "alice", .published, 100, some 200, 100⟩

/-- A draft post authored by alice. -/
def sampleDraft : PostRow :=
  ⟨"post-2", "oslo-draft", "Oslo", "alice", .draft, 150, none, 150⟩

/-- A published post authored by carol. -/
def sampleOther : PostRow :=
  ⟨"post-3", "bergen", "Bergen", "carol", .published, 120, some 180, 120⟩

/-- A sample store with the three posts and one existing text row with a
high display order on post-1. -/
def sampleStore : Store :=
  ⟨[samplePublished, sampleDraft, sampleOther], [], [],
    [⟨"t0", "post-1", "old block", 5, "main", 90⟩]⟩

/-- The reader account seeded by the user migration. -/
def leserUser : User := ⟨"leser", "bcrypt$pw1", .reader, some "Leser"⟩

/-- The contributor account seeded by the user migration. -/
def adminUser : User := ⟨"admin", "bcrypt$pw2", .contributor, some "Admin"⟩

/-- The sample credential store. -/
def sampleUsers : List User := [leserUser, adminUser]

/-- The sample post list: two published posts (alice, carol) and one draft
(alice). -/
def samplePosts : List PostRow := [samplePublished, sampleDraft, sampleOther]

/-- Sample content items for the reorder witness. -/
def c7Items : List ContentItem := [⟨⟨.photo, "a"⟩, 2⟩, ⟨⟨.text, "b"⟩, 0⟩]

/-- Sample reorder target: the text block first, then the photo. -/
def c7Target : List ContentKey := [⟨.text, "b"⟩, ⟨.photo, "a"⟩]

/-- The sample content of the C1 counterexample: photos at display orders 0
and 2 and a text block at 1.5. -/
def c1Content : PostContent :=
  { photos := [⟨"p0", "u", "a", none, 0⟩, ⟨"p1", "u", "a", none, 2⟩]
    videos := []
    textBlocks := [⟨"t1", "hello", mkRat 3 2⟩] }

/-- Sample heaps for the frame witness: one photo array with two photos out
of order, one video array, one text array. -/
def c9Heaps : RendererHeaps :=
  ⟨[[⟨"p0", "u", "a", none, 2⟩, ⟨"p1", "u", "a", none, 0⟩]],
    [[⟨"v0", "u", none, none, 1⟩]],
    [[⟨"t0", "hi", 0⟩]]⟩

/-! Section: Helper lemmas -/

theorem sortByDisplayOrder_perm {α : Type} (key : α → Rat) (l : List α) :
    List.Perm (sortByDisplayOrder key l) l :=
  List.perm_insertionSort _ l

theorem sortByDisplayOrder_sorted {α : Type} (key : α → Rat) (l : List α) :
    (sortByDisplayOrder key l).Pairwise (keyLe key) :=
  List.sorted_insertionSort _ l

theorem sortByDisplayOrder_mem {α : Type} (key : α → Rat) (l : List α)
    (a : α) : a ∈ sortByDisplayOrder key l ↔ a ∈ l :=
  (sortByDisplayOrder_perm key l).mem_iff

theorem char_toLower_eq_self (d : Char) (h : ¬(d.toNat ≥ 65 ∧ d.toNat ≤ 90)) :
    d.toLower = d := by
  unfold Char.toLower
  show (if d.toNat ≥ 65 ∧ d.toNat ≤ 90 then Char.ofNat (d.toNat + 32) else d) = d
  rw [if_neg h]

theorem char_toLower_toNat (c : Char) (h : c.toNat ≥ 65 ∧ c.toNat ≤ 90) :
    (c.toLower).toNat = c.toNat + 32 := by
  unfold Char.toLower
  show (if c.toNat ≥ 65 ∧ c.toNat ≤ 90 then Char.ofNat (c.toNat + 32) else c).toNat =
    c.toNat + 32
  rw [if_pos h]
  have hv : Nat.isValidChar (c.toNat + 32) := by
    left
    omega
  rw [Char.ofNat, dif_pos hv]
  rfl

theorem char_toLower_idem (c : Char) : (c.toLower).toLower = c.toLower := by
  by_cases h : c.toNat ≥ 65 ∧ c.toNat ≤ 90
  · have ht := char_toLower_toNat c h
    exact char_toLower_eq_self _ (by omega)
  · rw [char_toLower_eq_self c h, char_toLower_eq_self c h]

theorem jsToLowerCase_idem (s : String) :
    jsToLowerCase (jsToLowerCase s) = jsToLowerCase s := by
  unfold jsToLowerCase
  simp [List.map_map, Function.comp_def, char_toLower_idem]

/-! Section: Claim theorems -/

/-- Claim C10: a createText request that omits displayOrder stores the new
text block with displayOrder 0, whatever the existing content of the post:
the handler coalesces body.displayOrder with 0 before the null check, so the
MAX(display_order) + 1 fallback is unreachable and the stored value is
always body.displayOrder ?? 0. -/
theorem createText_omitted_displayOrder_defaults_to_zero
    (user : SessionUser) (postId : Option String) (body : CreateTextRequest)
    (store : Store) (now : Nat) (newId : String)
    (s2 : Store) (resp : CreateTextResponse)
    (hOk : createText user postId body store now newId = .ok (s2, resp)) :
    resp.displayOrder = body.displayOrder.getD 0 ∧
    (body.displayOrder = none →
      resp.displayOrder = 0 ∧
      (⟨newId, postId.getD "", body.content.getD "", 0, "main", now⟩ : TextRow)
        ∈ s2.textContent) := by
  simp only [createText] at hOk
  split at hOk
  · exact absurd hOk (by simp)
  · split at hOk
    · exact absurd hOk (by simp)
    · split at hOk
      · exact absurd hOk (by simp)
      · split at hOk
        · exact absurd hOk (by simp)
        · rw [Except.ok.injEq, Prod.mk.injEq] at hOk
          obtain ⟨hs, hr⟩ := hOk
          constructor
          · rw [← hr]
          · intro hnone
            rw [← hr, hnone]
            refine ⟨rfl, ?_⟩
            rw [← hs, hnone]
            simp

/-- Witness for C10: alice adds a text block without a display order to her
post post-1, whose existing text block sits at display order 5; the stored
block nevertheless gets display order 0. -/
theorem createText_omitted_displayOrder_defaults_to_zero_witness :
    (createText alice (some "post-1") ⟨some "hello", none⟩ sampleStore 300 "t1"
        = .ok (⟨[⟨"post-1", "trip-to-rome", "Rome", "alice", .published, 100,
            some 200, 300⟩, sampleDraft, sampleOther], [], [],
          [⟨"t0", "post-1", "old block", 5, "main", 90⟩,
            ⟨"t1", "post-1", "hello", 0, "main", 300⟩]⟩,
          ⟨"t1", "hello", 0, 300⟩)) ∧
    (⟨"t1", "hello", 0, 300⟩ : CreateTextResponse).displayOrder = 0 ∧
    (⟨"t1", "post-1", "hello", 0, "main", 300⟩ : TextRow) ∈
      ([⟨"t0", "post-1", "old block", 5, "main", 90⟩,
        ⟨"t1", "post-1", "hello", 0, "main", 300⟩] : List TextRow) := by
  have hOk : createText alice (some "post-1") ⟨some "hello", none⟩ sampleStore
      300 "t1" = .ok (⟨[⟨"post-1", "trip-to-rome", "Rome", "alice", .published,
        100, some 200, 300⟩, sampleDraft, sampleOther], [], [],
      [⟨"t0", "post-1", "old block", 5, "main", 90⟩,
        ⟨"t1", "post-1", "hello", 0, "main", 300⟩]⟩,
      ⟨"t1", "hello", 0, 300⟩) := by rfl
  have h := createText_omitted_displayOrder_defaults_to_zero alice
    (some "post-1") ⟨some "hello", none⟩ sampleStore 300 "t1" _ _ hOk
  exact ⟨hOk, (h.2 rfl).1, (h.2 rfl).2⟩

/-- Counterexample to C2 as stated: contributor bob is not the author of
post-1 (alice is), so canModify(bob, post-1) is false — yet createText fails
with the Unauthorized kind mapping to HTTP 401, not with Forbidden 403. -/
theorem createText_nonauthor_counterexample :
    canModify bob samplePublished = false ∧
    createText bob (some "post-1") ⟨some "hi", none⟩ sampleStore 300 "t9" =
      .error ⟨.unauthorized,
        "You do not have permission to add text to this post"⟩ ∧
    ErrorKind.unauthorized ≠ ErrorKind.forbidden ∧
    ErrorKind.unauthorized.status = 401 ∧
    ErrorKind.unauthorized.status ≠ 403 := by
  refine ⟨by decide, by rfl, by decide, by decide, by decide⟩

/-- Claim C2 as amended: before mutating, createText checks only authorship
(post.author_id == user.sub — the role is not consulted); when the caller is
not the author the request fails with the Unauthorized error kind (HTTP 401
under the spec taxonomy) and no row is inserted or updated. -/
theorem createText_nonauthor_unauthorized
    (user : SessionUser) (postId : Option String) (body : CreateTextRequest)
    (store : Store) (now : Nat) (newId : String) (p : PostRow)
    (hpid : falsyStr postId = false)
    (hcontent : falsyStr body.content = false)
    (hfind : store.blogPosts.find? (fun q => q.id == postId.getD "") = some p)
    (hnotauthor : p.authorId ≠ user.sub) :
    createText user postId body store now newId =
      .error ⟨.unauthorized,
        "You do not have permission to add text to this post"⟩ ∧
    ErrorKind.unauthorized.status = 401 ∧
    createTextObservable user postId body store now newId = store := by
  have hcall : createText user postId body store now newId =
      .error ⟨.unauthorized,
        "You do not have permission to add text to this post"⟩ := by
    simp only [createText, hpid, hcontent, hfind]
    simp [hnotauthor]
  refine ⟨hcall, rfl, ?_⟩
  simp only [createTextObservable, hcall]

/-- Witness for the amended C2: bob (a contributor who is not the author)
tries to add text to post-1; the call errors with Unauthorized 401 and the
store is unchanged. -/
theorem createText_nonauthor_unauthorized_witness :
    createText bob (some "post-1") ⟨some "hi", none⟩ sampleStore 300 "t9" =
      .error ⟨.unauthorized,
        "You do not have permission to add text to this post"⟩ ∧
    ErrorKind.unauthorized.status = 401 ∧
    createTextObservable bob (some "post-1") ⟨some "hi", none⟩ sampleStore 300
      "t9" = sampleStore :=
  createText_nonauthor_unauthorized bob (some "post-1") ⟨some "hi", none⟩
    sampleStore 300 "t9" samplePublished (by decide) (by decide) (by rfl)
    (by decide)

/-- Auxiliary for C8: when the stored usernames are case-insensitively
unique, looking up any casing of a stored username returns that user. -/
theorem findUserByUsername_unique_aux :
    ∀ (users : List User) (u : User), u ∈ users →
      (∀ v ∈ users, jsToLowerCase v.username = jsToLowerCase u.username → v = u) →
      ∀ t : String, jsToLowerCase t = jsToLowerCase u.username →
        findUserByUsername users t = some u := by
  intro users
  induction users with
  | nil => intro u hu; cases hu
  | cons v rest ih =>
    intro u hu huniq t ht
    show (v :: rest).find?
      (fun w => jsToLowerCase w.username == jsToLowerCase t) = some u
    by_cases hv : jsToLowerCase v.username = jsToLowerCase t
    · have hvu : v = u := huniq v (List.mem_cons_self v rest) (hv.trans ht)
      rw [List.find?_cons_of_pos _ (by simp [hv]), hvu]
    · have hur : u ∈ rest := by
        rcases List.mem_cons.mp hu with h | h
        · cases h
          exact absurd ht.symm hv
        · exact h
      have huniq2 : ∀ w ∈ rest,
          jsToLowerCase w.username = jsToLowerCase u.username → w = u :=
        fun w hw => huniq w (List.mem_cons_of_mem _ hw)
      have hres := ih u hur huniq2 t ht
      rw [List.find?_cons_of_neg _ (by simp [hv])]
      exact hres

/-- Claim C8: user lookup is invariant under letter case — looking up s and
looking up lowercase(s) agree — and, when the stored usernames are unique up
to case (the data-model invariant), looking up any string equal to a stored
username up to case returns that stored user. -/
theorem findUserByUsername_case_insensitive (users : List User) (s : String) :
    findUserByUsername users s = findUserByUsername users (jsToLowerCase s) ∧
    (∀ u, u ∈ users →
      (∀ v ∈ users, jsToLowerCase v.username = jsToLowerCase u.username → v = u) →
      ∀ t : String, jsToLowerCase t = jsToLowerCase u.username →
        findUserByUsername users t = some u) := by
  constructor
  · simp only [findUserByUsername, jsToLowerCase_idem]
  · intro u hu huniq t ht
    exact findUserByUsername_unique_aux users u hu huniq t ht




/-- Witness for C8: the lookup of LESER (an uppercase casing of the stored
username leser) returns the leser user, and lookup of a mixed-case string
agrees with the lookup of its lowercase form. -/
theorem findUserByUsername_case_insensitive_witness :
    findUserByUsername sampleUsers "LESER" = some leserUser ∧
    findUserByUsername sampleUsers "LeSeR" =
      findUserByUsername sampleUsers (jsToLowerCase "LeSeR") :=
  ⟨(findUserByUsername_case_insensitive sampleUsers "LESER").2 leserUser
      (by decide) (by decide) "LESER" (by decide),
    (findUserByUsername_case_insensitive sampleUsers "LeSeR").1⟩

/-- Claim C5: an unknown-username login failure and a wrong-password login
failure carry the same HTTP status 401 and byte-identical bodies — both are
the InvalidCredentials kind with the same generic message — so the response
never reveals whether the username exists. -/
theorem handleLogin_uniform_invalid_credentials (users : List User)
    (r1 r2 : LoginRequest) (now1 now2 : Nat)
    (h1u : falsyStr r1.username = false) (h1p : falsyStr r1.password = false)
    (h2u : falsyStr r2.username = false) (h2p : falsyStr r2.password = false)
    (habsent : findUserByUsername users (r1.username.getD "") = none)
    (u : User)
    (hfound : findUserByUsername users (r2.username.getD "") = some u)
    (hmismatch : verifyPassword (r2.password.getD "") u.passwordHash = false) :
    (handleLogin users r1 now1).status = 401 ∧
    (handleLogin users r1 now1).status = (handleLogin users r2 now2).status ∧
    (handleLogin users r1 now1).body = (handleLogin users r2 now2).body ∧
    (handleLogin users r1 now1).body =
      .err .invalidCredentials "Invalid username or password" := by
  have e1 : handleLogin users r1 now1 =
      ⟨401, .err .invalidCredentials "Invalid username or password", none⟩ := by
    simp only [handleLogin, h1u, h1p, Bool.or_self, Bool.false_eq_true,
      if_false, habsent]
  have e2 : handleLogin users r2 now2 =
      ⟨401, .err .invalidCredentials "Invalid username or password", none⟩ := by
    simp only [handleLogin, h2u, h2p, Bool.or_self, Bool.false_eq_true,
      if_false, hfound, hmismatch]
  rw [e1, e2]
  exact ⟨rfl, rfl, rfl, rfl⟩

/-- Witness for C5: the login of a nonexistent user and the login of leser
with a wrong password produce status 401 and identical bodies. -/
theorem handleLogin_uniform_invalid_credentials_witness :
    (handleLogin sampleUsers ⟨some "nonexistent", some "anypassword", false⟩
        10).status = 401 ∧
    (handleLogin sampleUsers ⟨some "nonexistent", some "anypassword", false⟩
        10).status =
      (handleLogin sampleUsers ⟨some "leser", some "wrongpassword", false⟩
        20).status ∧
    (handleLogin sampleUsers ⟨some "nonexistent", some "anypassword", false⟩
        10).body =
      (handleLogin sampleUsers ⟨some "leser", some "wrongpassword", false⟩
        20).body ∧
    (handleLogin sampleUsers ⟨some "nonexistent", some "anypassword", false⟩
        10).body =
      .err .invalidCredentials "Invalid username or password" :=
  handleLogin_uniform_invalid_credentials sampleUsers
    ⟨some "nonexistent", some "anypassword", false⟩
    ⟨some "leser", some "wrongpassword", false⟩ 10 20
    (by decide) (by decide) (by decide) (by decide) (by decide)
    leserUser (by decide) (by decide)

/-- Claim C6: a valid login succeeds and the issued token satisfies
expiresAt − issuedAt = 604800 seconds when rememberMe is set and 86400
seconds otherwise, with the cookie Max-Age equal to the same duration. -/
theorem handleLogin_token_duration (users : List User) (req : LoginRequest)
    (now : Nat) (u : User)
    (hu : falsyStr req.username = false) (hp : falsyStr req.password = false)
    (hfound : findUserByUsername users (req.username.getD "") = some u)
    (hverify : verifyPassword (req.password.getD "") u.passwordHash = true) :
    (handleLogin users req now).status = 200 ∧
    ((handleLogin users req now).setCookie.map
        (fun c => c.token.expiresAt - c.token.issuedAt)) =
      some (if req.rememberMe then 604800 else 86400) ∧
    ((handleLogin users req now).setCookie.map SessionCookie.maxAge) =
      some (if req.rememberMe then 604800 else 86400) := by
  have e : handleLogin users req now =
      ⟨200, .ok ⟨u.username, u.role⟩
          (now + (if req.rememberMe then 604800 else 86400)),
        some ⟨⟨u.username, u.role, now,
            now + (if req.rememberMe then 604800 else 86400)⟩,
          true, true, true, (if req.rememberMe then 604800 else 86400)⟩⟩ := by
    simp only [handleLogin, hu, hp, Bool.or_self, Bool.false_eq_true,
      if_false, hfound, hverify, if_true]
  rw [e]
  refine ⟨rfl, ?_, rfl⟩
  simp

/-- Witness for C6: leser logs in with the correct password and
rememberMe = true; the response is 200 and the token lifetime and cookie
Max-Age are both 604800 seconds. -/
theorem handleLogin_token_duration_witness :
    (handleLogin sampleUsers ⟨some "leser", some "pw1", true⟩ 50).status =
      200 ∧
    ((handleLogin sampleUsers ⟨some "leser", some "pw1", true⟩ 50).setCookie.map
        (fun c => c.token.expiresAt - c.token.issuedAt)) = some 604800 ∧
    ((handleLogin sampleUsers ⟨some "leser", some "pw1", true⟩ 50).setCookie.map
        SessionCookie.maxAge) = some 604800 :=
  handleLogin_token_duration sampleUsers ⟨some "leser", some "pw1", true⟩ 50
    leserUser (by decide) (by decide) (by decide) (by decide)


/-- Claim C3: with the published filter, listPosts returns exactly the
published posts — as many as there are published posts in the store, and
never a draft — regardless of caller role; and a contributor calling with
the all filter only receives posts they authored. -/
theorem listPosts_role_gating (posts : List PostRow) (role : Role)
    (cid : String) :
    ((listPosts posts role cid .published).length =
      (posts.filter (fun p => p.status == .published)).length) ∧
    (∀ p, p ∈ listPosts posts role cid .published →
      p.status = .published) ∧
    (∀ p, p ∈ listPosts posts .contributor cid .all → p.authorId = cid) := by
  refine ⟨?_, ?_, ?_⟩
  · simp only [listPosts]
    exact List.length_insertionSort _ _
  · intro p hp
    simp only [listPosts] at hp
    have hmem := (List.perm_insertionSort listPostsLe _).mem_iff.mp hp
    have := List.mem_filter.mp hmem
    simpa using this.2
  · intro p hp
    simp only [listPosts] at hp
    have hmem := (List.perm_insertionSort listPostsLe _).mem_iff.mp hp
    have := List.mem_filter.mp hmem
    simpa using this.2

/-- Witness for C3: over the sample posts (two published, one draft), the
published listing has length 2, the published post is indeed published, and
in the contributor-all view of alice every post is authored by alice. -/
theorem listPosts_role_gating_witness :
    (listPosts samplePosts .reader "leser" .published).length =
      (samplePosts.filter (fun p => p.status == .published)).length ∧
    (listPosts samplePosts .reader "leser" .published).length = 2 ∧
    samplePublished.status = .published ∧
    sampleDraft.authorId = "alice" := by
  have h := listPosts_role_gating samplePosts .reader "leser"
  have h2 := listPosts_role_gating samplePosts .reader "alice"
  exact ⟨h.1, by decide, h.2.1 samplePublished (by decide),
    h2.2.2 sampleDraft (by decide)⟩

/-- Claim C4: when a post is found by id or slug, getPost returns the post
with its content exactly when the post is published or the caller is its
author; in every other case it fails with NotFound 404 — never with
Forbidden. -/
theorem getPost_visibility (store : Store) (idOrSlug : String) (role : Role)
    (cid : String) (p : PostRow)
    (hfind : store.blogPosts.find?
      (fun q => q.id == idOrSlug || q.slug == idOrSlug) = some p) :
    (p.status = .published ∨ cid = p.authorId →
      getPost store idOrSlug role cid =
        .ok ⟨p, store.photoContent.filter (fun r => r.postId == p.id),
          store.videoContent.filter (fun r => r.postId == p.id),
          store.textContent.filter (fun r => r.postId == p.id)⟩) ∧
    (¬(p.status = .published ∨ cid = p.authorId) →
      getPost store idOrSlug role cid = .error ⟨.notFound, "Post not found"⟩ ∧
      ErrorKind.notFound.status = 404 ∧
      ErrorKind.notFound ≠ ErrorKind.forbidden) := by
  constructor
  · intro hvis
    rcases hvis with hs | hc
    · simp [getPost, hfind, hs]
    · simp [getPost, hfind, hc]
  · intro hnot
    push_neg at hnot
    refine ⟨?_, rfl, by decide⟩
    simp [getPost, hfind, hnot.1, hnot.2]

/-- Witness for C4: carol (not the author) asking for the draft post-2 gets
NotFound, while alice (the author) asking for her own draft gets the post
back. -/
theorem getPost_visibility_witness :
    getPost sampleStore "post-2" .reader "carol" =
      .error ⟨.notFound, "Post not found"⟩ ∧
    getPost sampleStore "post-2" .contributor "alice" =
      .ok ⟨sampleDraft, [], [], []⟩ := by
  have h1 := (getPost_visibility sampleStore "post-2" .reader "carol"
    sampleDraft (by rfl)).2 (by decide)
  have h2 := (getPost_visibility sampleStore "post-2" .contributor "alice"
    sampleDraft (by rfl)).1 (Or.inr (by decide))
  refine ⟨h1.1, ?_⟩
  rw [h2]
  rfl

/-- Claim C7: the reorder operation is all-or-nothing — the observable
content state after the request is either exactly the prior state or the
fully reordered state, never a mixture — and the committed assignment gives
the item at target position i the displayOrder i, so two items listed in
order receive strictly increasing displayOrder values, preserving the
caller-specified relative order. -/
theorem reorder_atomic_and_order_preserving (items : List ContentItem)
    (target : List ContentKey) (failAt : Option Nat) :
    (reorderObservable items target failAt = items ∨
      reorderObservable items target failAt = applyReorder items target) ∧
    (∀ a b i j, a ∈ items → b ∈ items →
      keyIndex a.key target = some i → keyIndex b.key target = some j →
      i < j →
      (⟨a.key, (i : Rat)⟩ : ContentItem) ∈ applyReorder items target ∧
      (⟨b.key, (j : Rat)⟩ : ContentItem) ∈ applyReorder items target ∧
      (i : Rat) < (j : Rat)) := by
  constructor
  · cases failAt with
    | none => right; rfl
    | some k =>
      by_cases hk : k < target.length
      · left
        simp [reorderObservable, reorderContent, hk]
      · right
        simp [reorderObservable, reorderContent, hk]
  · intro a b i j ha hb hi hj hij
    refine ⟨?_, ?_, by exact_mod_cast hij⟩
    · have hmem := List.mem_map_of_mem
        (fun it => match keyIndex it.key target with
          | some n => (⟨it.key, (n : Rat)⟩ : ContentItem)
          | none => it) ha
      simpa [applyReorder, hi] using hmem
    · have hmem := List.mem_map_of_mem
        (fun it => match keyIndex it.key target with
          | some n => (⟨it.key, (n : Rat)⟩ : ContentItem)
          | none => it) hb
      simpa [applyReorder, hj] using hmem



/-- Witness for C7: a failure of update 0 leaves the prior orders
observable, and the committed assignment puts the text block at 0 and the
photo at 1, in the requested relative order. -/
theorem reorder_atomic_and_order_preserving_witness :
    reorderObservable c7Items c7Target (some 0) = c7Items ∧
    (⟨⟨.text, "b"⟩, (0 : Rat)⟩ : ContentItem) ∈ applyReorder c7Items c7Target ∧
    (⟨⟨.photo, "a"⟩, (1 : Rat)⟩ : ContentItem) ∈ applyReorder c7Items c7Target ∧
    ((0 : Rat) < 1) := by
  have h := reorder_atomic_and_order_preserving c7Items c7Target (some 0)
  have h2 := h.2 ⟨⟨.text, "b"⟩, 0⟩ ⟨⟨.photo, "a"⟩, 2⟩ 0 1
    (by decide) (by decide) (by decide) (by decide) (by decide)
  exact ⟨by rfl, by simpa using h2.1, by simpa using h2.2.1, h2.2.2⟩

/-- Extracting the photos back out of a rendered photo segment. -/
theorem filterMap_asPhoto_map_photo (ps : List Photo) :
    (ps.map RenderedItem.photo).filterMap RenderedItem.asPhoto = ps := by
  rw [List.filterMap_map]
  simp [Function.comp_def, RenderedItem.asPhoto, List.filterMap_some]

/-- Extracting the videos back out of a rendered video segment. -/
theorem filterMap_asVideo_map_video (vs : List Video) :
    (vs.map RenderedItem.video).filterMap RenderedItem.asVideo = vs := by
  rw [List.filterMap_map]
  simp [Function.comp_def, RenderedItem.asVideo, List.filterMap_some]

/-- Extracting the text blocks back out of a rendered text segment. -/
theorem filterMap_asText_map_text (ts : List TextBlock) :
    (ts.map RenderedItem.text).filterMap RenderedItem.asText = ts := by
  rw [List.filterMap_map]
  simp [Function.comp_def, RenderedItem.asText, List.filterMap_some]

/-- A rendered video segment holds no photos. -/
theorem filterMap_asPhoto_map_video (vs : List Video) :
    (vs.map RenderedItem.video).filterMap RenderedItem.asPhoto = [] := by
  rw [List.filterMap_map]
  simp [Function.comp_def, RenderedItem.asPhoto]

/-- A rendered text segment holds no photos. -/
theorem filterMap_asPhoto_map_text (ts : List TextBlock) :
    (ts.map RenderedItem.text).filterMap RenderedItem.asPhoto = [] := by
  rw [List.filterMap_map]
  simp [Function.comp_def, RenderedItem.asPhoto]

/-- A rendered photo segment holds no videos. -/
theorem filterMap_asVideo_map_photo (ps : List Photo) :
    (ps.map RenderedItem.photo).filterMap RenderedItem.asVideo = [] := by
  rw [List.filterMap_map]
  simp [Function.comp_def, RenderedItem.asVideo]

/-- A rendered text segment holds no videos. -/
theorem filterMap_asVideo_map_text (ts : List TextBlock) :
    (ts.map RenderedItem.text).filterMap RenderedItem.asVideo = [] := by
  rw [List.filterMap_map]
  simp [Function.comp_def, RenderedItem.asVideo]

/-- A rendered photo segment holds no text blocks. -/
theorem filterMap_asText_map_photo (ps : List Photo) :
    (ps.map RenderedItem.photo).filterMap RenderedItem.asText = [] := by
  rw [List.filterMap_map]
  simp [Function.comp_def, RenderedItem.asText]

/-- A rendered video segment holds no text blocks. -/
theorem filterMap_asText_map_video (vs : List Video) :
    (vs.map RenderedItem.video).filterMap RenderedItem.asText = [] := by
  rw [List.filterMap_map]
  simp [Function.comp_def, RenderedItem.asText]


/-- Counterexample to C1 as stated: on a post with photos at display orders
0 and 2 and a text block at 1.5, the rendered sequence is not the merged
union sorted by displayOrder — the text block at 1.5 comes after the photo
at 2 — and the sequence is not ascending in displayOrder across types. -/
theorem PostRenderer_not_merged_counterexample :
    PostRenderer c1Content ≠ specMergedAssembly c1Content ∧
    ¬ (PostRenderer c1Content).Pairwise
      (fun x y => x.displayOrder ≤ y.displayOrder) := by
  constructor
  · decide
  · decide

/-- Claim C1 as amended: assembling a post for rendering produces three
per-type sequences concatenated — all photos first, then all videos, then
all text blocks — each sorted by displayOrder ascending within its own
type; the render order is not a single total order over the merged union. -/
theorem PostRenderer_per_type_ordering (content : PostContent) :
    List.Perm ((PostRenderer content).filterMap RenderedItem.asPhoto)
      content.photos ∧
    ((PostRenderer content).filterMap RenderedItem.asPhoto).Pairwise
      (keyLe Photo.displayOrder) ∧
    List.Perm ((PostRenderer content).filterMap RenderedItem.asVideo)
      content.videos ∧
    ((PostRenderer content).filterMap RenderedItem.asVideo).Pairwise
      (keyLe Video.displayOrder) ∧
    List.Perm ((PostRenderer content).filterMap RenderedItem.asText)
      content.textBlocks ∧
    ((PostRenderer content).filterMap RenderedItem.asText).Pairwise
      (keyLe TextBlock.displayOrder) ∧
    PostRenderer content =
      ((PostRenderer content).filterMap RenderedItem.asPhoto).map
        RenderedItem.photo ++
      ((PostRenderer content).filterMap RenderedItem.asVideo).map
        RenderedItem.video ++
      ((PostRenderer content).filterMap RenderedItem.asText).map
        RenderedItem.text := by
  have hP : (PostRenderer content).filterMap RenderedItem.asPhoto =
      sortByDisplayOrder Photo.displayOrder
        (sortByDisplayOrder Photo.displayOrder content.photos) := by
    simp only [PostRenderer, DefaultTemplate, PostRendererSortedContent,
      List.filterMap_append, filterMap_asPhoto_map_photo,
      filterMap_asPhoto_map_video, filterMap_asPhoto_map_text,
      List.append_nil]
  have hV : (PostRenderer content).filterMap RenderedItem.asVideo =
      sortByDisplayOrder Video.displayOrder
        (sortByDisplayOrder Video.displayOrder content.videos) := by
    simp only [PostRenderer, DefaultTemplate, PostRendererSortedContent,
      List.filterMap_append, filterMap_asVideo_map_photo,
      filterMap_asVideo_map_video, filterMap_asVideo_map_text,
      List.append_nil, List.nil_append]
  have hT : (PostRenderer content).filterMap RenderedItem.asText =
      sortByDisplayOrder TextBlock.displayOrder
        (sortByDisplayOrder TextBlock.displayOrder content.textBlocks) := by
    simp only [PostRenderer, DefaultTemplate, PostRendererSortedContent,
      List.filterMap_append, filterMap_asText_map_photo,
      filterMap_asText_map_video, filterMap_asText_map_text,
      List.nil_append]
  refine ⟨?_, ?_, ?_, ?_, ?_, ?_, ?_⟩
  · rw [hP]
    exact (sortByDisplayOrder_perm _ _).trans (sortByDisplayOrder_perm _ _)
  · rw [hP]
    exact sortByDisplayOrder_sorted _ _
  · rw [hV]
    exact (sortByDisplayOrder_perm _ _).trans (sortByDisplayOrder_perm _ _)
  · rw [hV]
    exact sortByDisplayOrder_sorted _ _
  · rw [hT]
    exact (sortByDisplayOrder_perm _ _).trans (sortByDisplayOrder_perm _ _)
  · rw [hT]
    exact sortByDisplayOrder_sorted _ _
  · rw [hP, hV, hT]
    rfl

/-- Claim C9: the renderer never mutates its input arrays.  In the heap
model of `[...arr].sort(cmp)`, after the renderer runs, each of the three
input array identities still dereferences to exactly the list it held
before the call, and the sorting happened on the freshly allocated
copies, which hold the sorted elements of the inputs. -/
theorem PostRenderer_frame (hs : RendererHeaps) (pa va ta : Nat)
    (hpa : pa < hs.photoHeap.length) (hva : va < hs.videoHeap.length)
    (hta : ta < hs.textHeap.length) :
    lookupArr (PostRendererEffect hs pa va ta).1.photoHeap pa =
      lookupArr hs.photoHeap pa ∧
    lookupArr (PostRendererEffect hs pa va ta).1.videoHeap va =
      lookupArr hs.videoHeap va ∧
    lookupArr (PostRendererEffect hs pa va ta).1.textHeap ta =
      lookupArr hs.textHeap ta ∧
    lookupArr (PostRendererEffect hs pa va ta).1.photoHeap
        (PostRendererEffect hs pa va ta).2.1 =
      some (sortByDisplayOrder Photo.displayOrder
        ((lookupArr hs.photoHeap pa).getD [])) ∧
    lookupArr (PostRendererEffect hs pa va ta).1.videoHeap
        (PostRendererEffect hs pa va ta).2.2.1 =
      some (sortByDisplayOrder Video.displayOrder
        ((lookupArr hs.videoHeap va).getD [])) ∧
    lookupArr (PostRendererEffect hs pa va ta).1.textHeap
        (PostRendererEffect hs pa va ta).2.2.2 =
      some (sortByDisplayOrder TextBlock.displayOrder
        ((lookupArr hs.textHeap ta).getD [])) := by
  refine ⟨?_, ?_, ?_, ?_, ?_, ?_⟩
  · show lookupArr ((hs.photoHeap ++ [_]).set hs.photoHeap.length _) pa = _
    unfold lookupArr
    rw [List.getElem?_set_ne (by omega), List.getElem?_append_left hpa]
  · show lookupArr ((hs.videoHeap ++ [_]).set hs.videoHeap.length _) va = _
    unfold lookupArr
    rw [List.getElem?_set_ne (by omega), List.getElem?_append_left hva]
  · show lookupArr ((hs.textHeap ++ [_]).set hs.textHeap.length _) ta = _
    unfold lookupArr
    rw [List.getElem?_set_ne (by omega), List.getElem?_append_left hta]
  · show lookupArr ((hs.photoHeap ++ [_]).set hs.photoHeap.length _)
      hs.photoHeap.length = _
    unfold lookupArr
    rw [List.getElem?_set_self (by simp)]
  · show lookupArr ((hs.videoHeap ++ [_]).set hs.videoHeap.length _)
      hs.videoHeap.length = _
    unfold lookupArr
    rw [List.getElem?_set_self (by simp)]
  · show lookupArr ((hs.textHeap ++ [_]).set hs.textHeap.length _)
      hs.textHeap.length = _
    unfold lookupArr
    rw [List.getElem?_set_self (by simp)]


/-- Witness for C9: running the renderer effect over the sample heaps
leaves the three input arrays holding exactly their original elements in
the original order, while the fresh arrays hold the sorted copies. -/
theorem PostRenderer_frame_witness :
    lookupArr (PostRendererEffect c9Heaps 0 0 0).1.photoHeap 0 =
      some [⟨"p0", "u", "a", none, 2⟩, ⟨"p1", "u", "a", none, 0⟩] ∧
    lookupArr (PostRendererEffect c9Heaps 0 0 0).1.videoHeap 0 =
      some [⟨"v0", "u", none, none, 1⟩] ∧
    lookupArr (PostRendererEffect c9Heaps 0 0 0).1.textHeap 0 =
      some [⟨"t0", "hi", 0⟩] := by
  have h := PostRenderer_frame c9Heaps 0 0 0 (by decide) (by decide)
    (by decide)
  exact ⟨h.1.trans (by rfl), h.2.1.trans (by rfl), h.2.2.1.trans (by rfl)⟩

end TravelBlog
